import Mathlib

/-!
Verification development for the blender-camera frame-reconstruction
pipeline.  The Python sources are shallowly embedded: numpy buffers become
lists of rows, IEEE float scalars that can carry NaN/Inf become the `F32`
inductive with exact rational payloads, and the fallible EXR decoding
becomes `Except`-valued functions.  Each definition mirrors one function of
`src/blender_camera` (file and line references in the doc comments).
-/

namespace BC

/-- An IEEE-style 32-bit float scalar as used by the depth/color/normal
buffers: a finite value (held exactly as a rational), the two infinities,
or NaN.  Comparison helpers follow IEEE semantics (NaN compares false). -/
inductive F32 where
  | finite (q : ℚ)
  | inf
  | neginf
  | nan
deriving DecidableEq

/-- `np.isfinite` on one scalar. -/
def F32.isFinite : F32 → Bool
  | .finite _ => true
  | _ => false

/-- The Python comparison `d <= 0` (false on NaN). -/
def F32.leZero : F32 → Bool
  | .finite q => decide (q ≤ 0)
  | .inf => false
  | .neginf => true
  | .nan => false

/-- The numpy comparison `d > 0` (false on NaN). -/
def F32.gtZero : F32 → Bool
  | .finite q => decide (0 < q)
  | .inf => true
  | .neginf => false
  | .nan => false

/-- The numpy comparison `d < 1000` (false on NaN). -/
def F32.ltThousand : F32 → Bool
  | .finite q => decide (q < 1000)
  | .inf => false
  | .neginf => true
  | .nan => false

/-- The rational payload of a finite scalar (0 for the non-finite ones;
only ever used behind a finiteness guard). -/
def F32.toRat : F32 → ℚ
  | .finite q => q
  | _ => 0

/-- 2D indexed read `m[y][x]` with a default, mirroring `buf[y, x]` on a
numpy array (theorems only use it in bounds). -/
def getD2 (m : List (List α)) (y x : ℕ) (d : α) : α :=
  (m.getD y []).getD x d

/-- Truncation toward zero, the C-style `(int) x` conversion numpy's
`astype` performs on a float. -/
def truncRat (q : ℚ) : ℤ :=
  if 0 ≤ q then ⌊q⌋ else ⌈q⌉

/-- numpy `astype(np.uint8)` on a float scalar: truncate toward zero and
keep the low byte (two's-complement wrap), the platform behavior the
reference code exhibits for out-of-range values. -/
def castU8 (q : ℚ) : ℕ :=
  (truncRat q % 256).toNat

/-- One attribute slot of a duck-typed intrinsics object: a convertible
numeric value, a value `float()` rejects (TypeError/ValueError), or an
absent attribute (`hasattr` false). -/
inductive Attr where
  | val (q : ℚ)
  | invalid
  | absent
deriving DecidableEq

/-- `float(a)` as an option: `some` exactly when conversion succeeds. -/
def Attr.toFloat? : Attr → Option ℚ
  | .val q => some q
  | _ => none

/-- `hasattr(obj, name)`. -/
def Attr.present : Attr → Bool
  | .absent => false
  | _ => true

/-- A duck-typed `camera_intrinsics` object with its four slots. -/
structure IntrinsicsObj where
  fx : Attr
  fy : Attr
  cx : Attr
  cy : Attr
deriving DecidableEq

/-- The camera as `Frame.to_ply_bytes` consumes it: only the
`camera_intrinsics` attribute is ever read (`None` maps to `none`). -/
structure Camera where
  camera_intrinsics : Option IntrinsicsObj
deriving DecidableEq

/-- Effective pinhole parameters. -/
structure Pinhole where
  fx : ℚ
  fy : ℚ
  cx : ℚ
  cy : ℚ
deriving DecidableEq

/-- The `(fx, fy, cx, cy)` locals at the end of the `try` block of
`Frame.to_ply_bytes` (models/frame.py lines 54-72): the four conversions
run in order and an exception leaves the later slots at `None`. -/
def tryIntrinsics (c : Camera) : Option ℚ × Option ℚ × Option ℚ × Option ℚ :=
  match c.camera_intrinsics with
  | none => (none, none, none, none)
  | some i =>
    if i.fx.present && i.fy.present && i.cx.present && i.cy.present then
      match i.fx.toFloat? with
      | none => (none, none, none, none)
      | some fx =>
        match i.fy.toFloat? with
        | none => (some fx, none, none, none)
        | some fy =>
          match i.cx.toFloat? with
          | none => (some fx, some fy, none, none)
          | some cx =>
            match i.cy.toFloat? with
            | none => (some fx, some fy, some cx, none)
            | some cy => (some fx, some fy, some cx, some cy)
    else (none, none, none, none)

/-- The default intrinsics of models/frame.py lines 75-78. -/
def defaultPinhole (width height : ℕ) : Pinhole :=
  { fx := (max width height : ℕ), fy := (max width height : ℕ),
    cx := (width : ℚ) / 2, cy := (height : ℚ) / 2 }

/-- The intrinsics `Frame.to_ply_bytes` actually unprojects with
(models/frame.py lines 54-78): the camera's four values when all are
present and convertible, the full default quadruple otherwise. -/
def effectiveIntrinsics (c : Camera) (width height : ℕ) : Pinhole :=
  match tryIntrinsics c with
  | (some fx, some fy, some cx, some cy) => { fx, fy, cx, cy }
  | _ => defaultPinhole width height

/-- A decoded render pass as models/frame.py's `Frame` holds it: the
camera, a depth buffer (rows of scalars) and normal/color buffers (rows
of triples). -/
structure Frame where
  camera : Camera
  depth : List (List F32)
  normal : List (List (ℚ × ℚ × ℚ))
  color : List (List (ℚ × ℚ × ℚ))
deriving DecidableEq

/-- `height` from `self._depth.shape`. -/
def Frame.height (f : Frame) : ℕ := f.depth.length

/-- `width` from `self._depth.shape`. -/
def Frame.width (f : Frame) : ℕ := (f.depth.headD []).length

/-- The skip test of models/frame.py line 90: a vertex is emitted unless
`depth_val <= 0 or not np.isfinite(depth_val)`. -/
def emitAt (f : Frame) (y x : ℕ) : Bool :=
  let d := getD2 f.depth y x F32.nan
  !(d.leZero || !d.isFinite)

/-- One emitted PLY vertex of `Frame.to_ply_bytes`. -/
structure Vertex where
  x : ℚ
  y : ℚ
  z : ℚ
  nx : ℚ
  ny : ℚ
  nz : ℚ
  red : ℕ
  green : ℕ
  blue : ℕ
deriving DecidableEq

/-- The vertex built for pixel `(y, x)` by models/frame.py lines 93-107:
pinhole unprojection of the depth, the raw world-space normal, and the
color channels times 255 cast to uint8 (no clamping in the source). -/
def mkVertex (P : Pinhole) (f : Frame) (y x : ℕ) : Vertex :=
  let z := (getD2 f.depth y x F32.nan).toRat
  let n := getD2 f.normal y x (0, 0, 0)
  let c := getD2 f.color y x (0, 0, 0)
  { x := ((x : ℚ) - P.cx) * z / P.fx
    y := ((y : ℚ) - P.cy) * z / P.fy
    z := z
    nx := n.1, ny := n.2.1, nz := n.2.2
    red := castU8 (c.1 * 255)
    green := castU8 (c.2.1 * 255)
    blue := castU8 (c.2.2 * 255) }

/-- The vertex list of `Frame.to_ply_bytes` (models/frame.py lines
85-107): row-major scan of the pixels, skipping invalid depth. -/
def Frame.plyVertices (f : Frame) : List Vertex :=
  let P := effectiveIntrinsics f.camera f.width f.height
  ((List.range f.height).product (List.range f.width)).filterMap
    (fun yx =>
      if emitAt f yx.1 yx.2 then some (mkVertex P f yx.1 yx.2) else none)

/-- The structured content of a written PLY header: format line, declared
vertex count, and the `(type, name)` property list in declared order. -/
structure PlyHeader where
  format : String
  vertexCount : ℕ
  props : List (String × String)
deriving DecidableEq

/-- The vertex property names of `Frame.to_ply_bytes`, in the order of the
structured dtype of models/frame.py lines 113-125. -/
def framePlyProps : List (String × String) :=
  [("float", "x"), ("float", "y"), ("float", "z"),
   ("float", "nx"), ("float", "ny"), ("float", "nz"),
   ("uchar", "red"), ("uchar", "green"), ("uchar", "blue")]

/-- The header `PlyData([vertex_element], text=True)` writes for
`Frame.to_ply_bytes`, with the count taken from the data length. -/
def framePlyHeader (n : ℕ) : PlyHeader :=
  { format := "ascii 1.0", vertexCount := n, props := framePlyProps }

/-- The textual header lines a PLY header renders to. -/
def PlyHeader.lines (h : PlyHeader) : List String :=
  ["ply", "format " ++ h.format, "element vertex " ++ toString h.vertexCount]
    ++ h.props.map (fun p => "property " ++ p.1 ++ " " ++ p.2)
    ++ ["end_header"]

/-- The full PLY output of `Frame.to_ply_bytes` as structured header plus
data rows (one row per vertex). -/
def Frame.toPly (f : Frame) : PlyHeader × List Vertex :=
  (framePlyHeader f.plyVertices.length, f.plyVertices)

/-! ## The `Blender._convert_exr_to_ply` pipeline (blender.py) -/

/-- One EXR artifact as the decoder sees it: the declared data-window
size and the named channel buffers in declaration order. -/
structure ExrArtifact where
  width : ℕ
  height : ℕ
  channels : List (String × List F32)
deriving DecidableEq

/-- `header["channels"].keys()` in declaration order. -/
def ExrArtifact.channelNames (a : ExrArtifact) : List String :=
  a.channels.map Prod.fst

/-- `file.channel(name)`: the flat buffer of one channel if declared. -/
def ExrArtifact.channel? (a : ExrArtifact) (n : String) : Option (List F32) :=
  (a.channels.find? (fun c => c.1 == n)).map Prod.snd

/-- The depth channel priority list of blender.py line 130. -/
def depthChannelPriority : List String :=
  ["Z", "Depth", "R", "G", "B", "A"]

/-- Depth channel selection of blender.py lines 129-137 (identical in
scripts/render_frame_script.py lines 24-32): first priority name present
in the artifact, else the artifact's first declared channel, else `"R"`. -/
def selectDepthChannel (available : List String) : String :=
  match depthChannelPriority.find? (fun n => available.contains n) with
  | some n => n
  | none => available.headD ("R")

/-- `flat.reshape((h, w))`: succeeds iff the element count matches, and
raises a generic ValueError otherwise (numpy semantics). -/
def reshape (buf : List F32) (h w : ℕ) : Except String (List (List F32)) :=
  if buf.length = h * w then
    .ok ((List.range h).map (fun i => (buf.drop (i * w)).take w))
  else
    .error ("ValueError: cannot reshape")

/-- The buffers `_convert_exr_to_ply` holds after decoding: color planes,
depth plane, optional normal planes, all shaped by the color artifact's
declared data window. -/
structure DecodedPass where
  width : ℕ
  height : ℕ
  r : List (List F32)
  g : List (List F32)
  b : List (List F32)
  depth : List (List F32)
  normals : Option (List (List F32) × List (List F32) × List (List F32))
deriving DecidableEq

/-- The normal-reading block of blender.py lines 142-165: prefer an
`X,Y,Z` triplet, else an `R,G,B` triplet, else leave normals `None`;
reshaping uses the color artifact's dimensions and may fail. -/
def decodeNormals (normalA : Option ExrArtifact) (h w : ℕ) :
    Except String (Option (List (List F32) × List (List F32) × List (List F32))) :=
  match normalA with
  | none => .ok none
  | some na =>
    if na.channelNames.contains ("X") && na.channelNames.contains ("Y")
        && na.channelNames.contains ("Z") then
      match na.channel? ("X"), na.channel? ("Y"), na.channel? ("Z") with
      | some xb, some yb, some zb =>
        match reshape xb h w, reshape yb h w, reshape zb h w with
        | .ok nx, .ok ny, .ok nz => .ok (some (nx, ny, nz))
        | _, _, _ => .error ("ValueError: cannot reshape")
      | _, _, _ => .error ("missing normal channel")
    else if na.channelNames.contains ("R") && na.channelNames.contains ("G")
        && na.channelNames.contains ("B") then
      match na.channel? ("R"), na.channel? ("G"), na.channel? ("B") with
      | some xb, some yb, some zb =>
        match reshape xb h w, reshape yb h w, reshape zb h w with
        | .ok nx, .ok ny, .ok nz => .ok (some (nx, ny, nz))
        | _, _, _ => .error ("ValueError: cannot reshape")
      | _, _, _ => .error ("missing normal channel")
    else .ok none

/-- The decoding phase of `Blender._convert_exr_to_ply` (blender.py lines
106-165): width/height come from the color artifact's data window; the
color `R,G,B` channels are required; the depth channel is selected by
`selectDepthChannel`; every buffer is reshaped with the color dimensions
and the first failing reshape aborts the whole decode with no output. -/
def decodePass (color depthA : ExrArtifact) (normalA : Option ExrArtifact) :
    Except String DecodedPass :=
  let w := color.width
  let h := color.height
  match color.channel? ("R"), color.channel? ("G"), color.channel? ("B") with
  | some rb, some gb, some bb =>
    match reshape rb h w, reshape gb h w, reshape bb h w with
    | .ok r, .ok g, .ok b =>
      match depthA.channel? (selectDepthChannel depthA.channelNames) with
      | some db =>
        match reshape db h w with
        | .ok depth =>
          match decodeNormals normalA h w with
          | .ok normals => .ok { width := w, height := h, r, g, b, depth, normals }
          | .error e => .error e
        | .error e => .error e
      | none => .error ("missing depth channel")
    | _, _, _ => .error ("ValueError: cannot reshape")
  | _, _, _ => .error ("missing color channel")

/-- The hard-coded intrinsics of blender.py lines 168-170:
`fx = fy = width * 0.7`, `cx = width / 2`, `cy = height / 2`; the camera's
own intrinsics are never consulted here. -/
def blenderIntrinsics (width height : ℕ) : Pinhole :=
  { fx := (7 / 10 : ℚ) * width, fy := (7 / 10 : ℚ) * width,
    cx := (width : ℚ) / 2, cy := (height : ℚ) / 2 }

/-- The valid mask of blender.py line 177:
`(depth > 0) & (depth < 1000) & np.isfinite(depth)`. -/
def blenderValid (d : F32) : Bool :=
  d.gtZero && d.ltThousand && d.isFinite

/-- `np.clip(c * 255, 0, 255).astype(np.uint8)` on one channel value
(blender.py line 192): clamp first, then truncating cast. -/
def blenderColorU8 (q : ℚ) : ℕ :=
  (truncRat (min 255 (max 0 (q * 255)))).toNat

/-- One emitted vertex of `Blender._convert_exr_to_ply`, in the tuple
order of blender.py lines 200-211 (position, color, optional normal). -/
structure BVertex where
  x : ℚ
  y : ℚ
  z : ℚ
  red : ℕ
  green : ℕ
  blue : ℕ
  normal : Option (ℚ × ℚ × ℚ)
deriving DecidableEq

/-- The vertex list of `Blender._convert_exr_to_ply` (blender.py lines
172-212): row-major meshgrid order, `blenderValid` filter, unprojection
with `blenderIntrinsics`, clamped colors, normals passed through. -/
def blenderVertices (p : DecodedPass) : List BVertex :=
  let P := blenderIntrinsics p.width p.height
  ((List.range p.height).product (List.range p.width)).filterMap
    (fun yx =>
      let d := getD2 p.depth yx.1 yx.2 F32.nan
      if blenderValid d then
        some
          { x := ((yx.2 : ℚ) - P.cx) * d.toRat / P.fx
            y := ((yx.1 : ℚ) - P.cy) * d.toRat / P.fy
            z := d.toRat
            red := blenderColorU8 (getD2 p.r yx.1 yx.2 F32.nan).toRat
            green := blenderColorU8 (getD2 p.g yx.1 yx.2 F32.nan).toRat
            blue := blenderColorU8 (getD2 p.b yx.1 yx.2 F32.nan).toRat
            normal := p.normals.map (fun n =>
              ((getD2 n.1 yx.1 yx.2 F32.nan).toRat,
               (getD2 n.2.1 yx.1 yx.2 F32.nan).toRat,
               (getD2 n.2.2 yx.1 yx.2 F32.nan).toRat)) }
      else none)

/-- The vertex property list of `Blender._convert_exr_to_ply` (the dtype
lists of blender.py lines 215-235): position, then color, then the
normal triplet only when normals were decoded. -/
def blenderPlyProps (hasNormals : Bool) : List (String × String) :=
  if hasNormals then
    [("float", "x"), ("float", "y"), ("float", "z"),
     ("uchar", "red"), ("uchar", "green"), ("uchar", "blue"),
     ("float", "nx"), ("float", "ny"), ("float", "nz")]
  else
    [("float", "x"), ("float", "y"), ("float", "z"),
     ("uchar", "red"), ("uchar", "green"), ("uchar", "blue")]

/-- The header `PlyData([vertex_element])` (binary default) writes for
`Blender._convert_exr_to_ply`. -/
def blenderPlyHeader (n : ℕ) (hasNormals : Bool) : PlyHeader :=
  { format := "binary_little_endian 1.0", vertexCount := n,
    props := blenderPlyProps hasNormals }

/-- The full PLY output of `Blender._convert_exr_to_ply` for a decoded
pass: header plus one record per emitted vertex. -/
def blenderToPly (p : DecodedPass) : PlyHeader × List BVertex :=
  (blenderPlyHeader (blenderVertices p).length p.normals.isSome,
   blenderVertices p)

/-! ## The raster encoder `_to_8bit_png` (models/frame.py lines 11-21) -/

/-- One scalar through `_to_8bit_png`: `np.clip(q, 0.0, 1.0)` then the
truncating `astype(np.uint8)` cast (models/frame.py lines 13-14, same
arithmetic as blender.py lines 92-93). -/
def quant8 (q : ℚ) : ℕ :=
  castU8 ((min 1 (max 0 q)) * 255)

/-- The pixel array `_to_8bit_png` builds before PNG serialization:
elementwise clip to `[0, 1]` and truncating cast to `uint8`. -/
def to_8bit_png (img : List (List ℚ)) : List (List ℕ) :=
  img.map (fun row => row.map quant8)

/-- Whether an `Except`-valued decode produced a value. -/
def decodeOk (e : Except String DecodedPass) : Bool :=
  match e with
  | .ok _ => true
  | .error _ => false

/-! ## The orchestrator's render scope (blender.py lines 33-66) -/

/-- The four exit paths of one `_render_frame` invocation the spec names:
normal completion of the consumer, non-zero exit of the external process,
an exception raised while the consumer holds the yielded path, or
cancellation at the await point. -/
inductive RenderExit where
  | success
  | processFailure
  | decodeError
  | cancelled
deriving DecidableEq

/-- What the body of the scope's `try` produces on each exit path: a
yielded-and-consumed output path, or a propagating exception. -/
inductive ScopeResult where
  | yielded
  | raised (msg : String)
deriving DecidableEq

/-- Whether the invocation's two scoped temporary resources exist. -/
structure ScopeState where
  inputFile : Bool
  outputDir : Bool
deriving DecidableEq

/-- The body of the `try` block of `_render_frame` per exit path. -/
def renderBody : RenderExit → ScopeResult
  | .success => .yielded
  | .processFailure => .raised ("RuntimeError: Blender process failed")
  | .decodeError => .raised ("DecodeError")
  | .cancelled => .raised ("CancelledError")

/-- `Blender._render_frame` (blender.py lines 33-66): the temporary input
file and output directory are created before the `try`, the body runs,
and the `finally` block removes first the input file and then the output
directory on every exit path. -/
def renderScope (e : RenderExit) : ScopeResult × ScopeState :=
  let st0 : ScopeState := { inputFile := true, outputDir := true }
  let r := renderBody e
  let st1 : ScopeState := { st0 with inputFile := false }
  let st2 : ScopeState := { st1 with outputDir := false }
  (r, st2)

/-- `BlenderFrame.__exit__` (blender_frame.py lines 13-16): each of the
three artifact files is removed when it exists, for any exception state. -/
def blenderFrameExit (color depth normal : Bool) : Bool × Bool × Bool :=
  let c := if color then false else color
  let d := if depth then false else depth
  let n := if normal then false else normal
  (c, d, n)

/-! ## Spec-modelled normal re-basing (spec §4.2 step 2)

No rotation of normals exists anywhere under src/ — `Frame.to_ply_bytes`
writes the world-space normal unchanged (models/frame.py lines 105-107).
The following definitions follow the spec's words (Rodrigues' formula,
identity below the 1e-8 threshold, camera normal = Rᵀ · world normal) so
the code's behavior can be compared against them. -/

/-- A 3×3 real matrix by explicit entries. -/
structure Mat3 where
  a11 : ℝ
  a12 : ℝ
  a13 : ℝ
  a21 : ℝ
  a22 : ℝ
  a23 : ℝ
  a31 : ℝ
  a32 : ℝ
  a33 : ℝ

/-- The identity matrix. -/
noncomputable def mId : Mat3 :=
  ⟨1, 0, 0, 0, 1, 0, 0, 0, 1⟩

/-- Entrywise sum. -/
noncomputable def mAdd (A B : Mat3) : Mat3 :=
  ⟨A.a11 + B.a11, A.a12 + B.a12, A.a13 + B.a13,
   A.a21 + B.a21, A.a22 + B.a22, A.a23 + B.a23,
   A.a31 + B.a31, A.a32 + B.a32, A.a33 + B.a33⟩

/-- Scalar multiple. -/
noncomputable def mSmul (c : ℝ) (A : Mat3) : Mat3 :=
  ⟨c * A.a11, c * A.a12, c * A.a13,
   c * A.a21, c * A.a22, c * A.a23,
   c * A.a31, c * A.a32, c * A.a33⟩

/-- Matrix product. -/
noncomputable def mMul (A B : Mat3) : Mat3 :=
  ⟨A.a11 * B.a11 + A.a12 * B.a21 + A.a13 * B.a31,
   A.a11 * B.a12 + A.a12 * B.a22 + A.a13 * B.a32,
   A.a11 * B.a13 + A.a12 * B.a23 + A.a13 * B.a33,
   A.a21 * B.a11 + A.a22 * B.a21 + A.a23 * B.a31,
   A.a21 * B.a12 + A.a22 * B.a22 + A.a23 * B.a32,
   A.a21 * B.a13 + A.a22 * B.a23 + A.a23 * B.a33,
   A.a31 * B.a11 + A.a32 * B.a21 + A.a33 * B.a31,
   A.a31 * B.a12 + A.a32 * B.a22 + A.a33 * B.a32,
   A.a31 * B.a13 + A.a32 * B.a23 + A.a33 * B.a33⟩

/-- Transpose. -/
noncomputable def mT (A : Mat3) : Mat3 :=
  ⟨A.a11, A.a21, A.a31, A.a12, A.a22, A.a32, A.a13, A.a23, A.a33⟩

/-- Matrix applied to a column vector. -/
noncomputable def mApp (A : Mat3) (v : ℝ × ℝ × ℝ) : ℝ × ℝ × ℝ :=
  (A.a11 * v.1 + A.a12 * v.2.1 + A.a13 * v.2.2,
   A.a21 * v.1 + A.a22 * v.2.1 + A.a23 * v.2.2,
   A.a31 * v.1 + A.a32 * v.2.1 + A.a33 * v.2.2)

/-- The skew-symmetric cross-product matrix `K` of a vector. -/
noncomputable def skewMat (k : ℝ × ℝ × ℝ) : Mat3 :=
  ⟨0, -k.2.2, k.2.1, k.2.2, 0, -k.1, -k.2.1, k.1, 0⟩

/-- Modelled from the spec: the rotation matrix built from an axis-angle
vector by Rodrigues' formula, `R = I + sin θ · K + (1 − cos θ) · K²` with
`θ` the axis-vector magnitude, treated as the identity when `θ < 1e-8`
(spec §4.2 step 2 — this operation has no counterpart in src/). -/
noncomputable def rodrigues (r : ℝ × ℝ × ℝ) : Mat3 :=
  let θ := Real.sqrt (r.1 ^ 2 + r.2.1 ^ 2 + r.2.2 ^ 2)
  if θ < 1e-8 then mId
  else
    let k : ℝ × ℝ × ℝ := (r.1 / θ, r.2.1 / θ, r.2.2 / θ)
    let K := skewMat k
    mAdd (mAdd mId (mSmul (Real.sin θ) K))
      (mSmul (1 - Real.cos θ) (mMul K K))

/-- Modelled from the spec: the camera-space normal
`Rᵀ · normal_world` for a camera pose with axis-angle rotation `r`
(spec §4.2 step 2 — this operation has no counterpart in src/). -/
noncomputable def specCameraNormal (r n : ℝ × ℝ × ℝ) : ℝ × ℝ × ℝ :=
  mApp (mT (rodrigues r)) n

/-- Coercion of an exact rational triple into the reals, for comparing
the code's emitted normals with the spec-modelled rotation. -/
noncomputable def ratTriple (v : ℚ × ℚ × ℚ) : ℝ × ℝ × ℝ :=
  ((v.1 : ℝ), (v.2.1 : ℝ), (v.2.2 : ℝ))

deriving instance DecidableEq for Except

/-! ## Concrete inputs for witnesses and counterexamples -/

/-- Shorthand for a finite zero scalar. -/
def f0 : F32 := F32.finite 0

/-- An intrinsics object with `fx = fy = 100`, `cx = cy = 0.5`. -/
def exIntr : IntrinsicsObj :=
  ⟨Attr.val 100, Attr.val 100, Attr.val (1 / 2), Attr.val (1 / 2)⟩

/-- A camera carrying `exIntr`. -/
def exCamera : Camera := ⟨some exIntr⟩

/-- A camera with `camera_intrinsics = None`. -/
def noIntrCamera : Camera := ⟨none⟩

/-- 1×1 frame with depth 1.0 at pixel (0,0), the unprojection test
input of spec §8. -/
def exFrame1 : Frame :=
  ⟨exCamera, [[F32.finite 1]], [[(0, 0, 1)]], [[(1, 1 / 2, 0)]]⟩

/-- The single vertex `Frame.to_ply_bytes` emits for `exFrame1`. -/
def exVertex1 : Vertex :=
  ⟨-(1 / 200), -(1 / 200), 1, 0, 0, 1, 255, 127, 0⟩

/-- 1×1 frame whose world normal is `(1,0,0)`, used to compare the
emitted normal with the spec-modelled rotation. -/
def exFrame3 : Frame :=
  ⟨noIntrCamera, [[F32.finite 1]], [[(1, 0, 0)]], [[(0, 0, 0)]]⟩

/-- The single vertex `Frame.to_ply_bytes` emits for `exFrame3`. -/
def exVertex3 : Vertex :=
  ⟨-(1 / 2), -(1 / 2), 1, 1, 0, 0, 0, 0, 0⟩

/-- 2×2 frame over the depth buffer `[[0.1, -0.5], [inf, nan]]` of the
vertex-count property (spec §8). -/
def exFrame4 : Frame :=
  ⟨noIntrCamera,
   [[F32.finite (1 / 10), F32.finite (-(1 / 2))], [F32.inf, F32.nan]],
   [[(0, 0, 1), (0, 0, 1)], [(0, 0, 1), (0, 0, 1)]],
   [[(0, 0, 0), (0, 0, 0)], [(0, 0, 0), (0, 0, 0)]]⟩

/-- 1×1 frame whose red color channel is 2.0, outside `[0, 1]`. -/
def exFrame6 : Frame :=
  ⟨noIntrCamera, [[F32.finite 1]], [[(0, 0, 1)]], [[(2, 0, 0)]]⟩

/-- 1×1 frame with depth 0: no pixel passes the skip test, so the PLY
output has an empty body. -/
def exFrame7 : Frame :=
  ⟨noIntrCamera, [[F32.finite 0]], [[(0, 0, 1)]], [[(0, 0, 0)]]⟩

/-- A decoded 2-wide, 1-high pass with unit depth everywhere: input for
showing which intrinsics `Blender._convert_exr_to_ply` unprojects with. -/
def exPass2 : DecodedPass :=
  ⟨2, 1, [[f0, f0]], [[f0, f0]], [[f0, f0]],
   [[F32.finite 1, F32.finite 1]], none⟩

/-- A decoded 1×1 pass with depth 1500: finite and positive, but at or
above the 1000 cutoff of blender.py line 177. -/
def exPass4 : DecodedPass :=
  ⟨1, 1, [[f0]], [[f0]], [[f0]], [[F32.finite 1500]], none⟩

/-- A decoded 1×1 pass that carries normals, so the blender PLY output
declares the normal properties. -/
def exPass7 : DecodedPass :=
  ⟨1, 1, [[f0]], [[f0]], [[f0]], [[F32.finite 1]],
   some ([[f0]], [[f0]], [[F32.finite 1]])⟩

/-- A color artifact declaring a 2-wide, 3-high data window with the
required `R,G,B` channels of six samples each. -/
def exColorOk : ExrArtifact :=
  ⟨2, 3, [("R", List.replicate 6 f0), ("G", List.replicate 6 f0),
          ("B", List.replicate 6 f0)]⟩

/-- A depth artifact declaring a 3-wide, 2-high data window — transposed
relative to `exColorOk` — whose `Z` buffer still has six samples. -/
def exDepthT : ExrArtifact :=
  ⟨3, 2, [("Z", List.replicate 6 (F32.finite 1))]⟩

/-- The pass `decodePass` produces for `exColorOk`/`exDepthT`. -/
def exPassOk : DecodedPass :=
  ⟨2, 3, [[f0, f0], [f0, f0], [f0, f0]], [[f0, f0], [f0, f0], [f0, f0]],
   [[f0, f0], [f0, f0], [f0, f0]],
   [[F32.finite 1, F32.finite 1], [F32.finite 1, F32.finite 1],
    [F32.finite 1, F32.finite 1]], none⟩

/-- A 1×1 color artifact. -/
def exColor1 : ExrArtifact :=
  ⟨1, 1, [("R", [f0]), ("G", [f0]), ("B", [f0])]⟩

/-- A depth artifact whose `Z` buffer has two samples against a 1×1
color data window. -/
def exDepthBad : ExrArtifact :=
  ⟨1, 1, [("Z", [F32.finite 1, F32.finite 2])]⟩

/-! ## Helper lemmas -/

/-- Membership in `Frame.plyVertices` characterized: exactly the
`mkVertex` values of in-bounds pixels that pass the skip test. -/
theorem mem_plyVertices_iff (f : Frame) (v : Vertex) :
    v ∈ f.plyVertices ↔
      ∃ y x, y < f.height ∧ x < f.width ∧ emitAt f y x = true ∧
        v = mkVertex (effectiveIntrinsics f.camera f.width f.height) f y x := by
  simp only [Frame.plyVertices, List.mem_filterMap]
  constructor
  · rintro ⟨⟨y, x⟩, hmem, hv⟩
    rw [List.pair_mem_product] at hmem
    simp only [List.mem_range] at hmem
    by_cases he : emitAt f y x
    · rw [if_pos he] at hv
      exact ⟨y, x, hmem.1, hmem.2, he, (Option.some.inj hv).symm⟩
    · rw [if_neg he] at hv
      cases hv
  · rintro ⟨y, x, hy, hx, he, rfl⟩
    refine ⟨(y, x), ?_, ?_⟩
    · rw [List.pair_mem_product]
      simp only [List.mem_range]
      exact ⟨hy, hx⟩
    · rw [if_pos he]

/-- Membership in `blenderVertices` characterized: exactly the vertices
of in-bounds pixels passing the `blenderValid` mask. -/
theorem mem_blenderVertices_iff (p : DecodedPass) (v : BVertex) :
    v ∈ blenderVertices p ↔
      ∃ y x, y < p.height ∧ x < p.width ∧
        blenderValid (getD2 p.depth y x F32.nan) = true ∧
        v = { x := ((x : ℚ) - (blenderIntrinsics p.width p.height).cx)
                  * (getD2 p.depth y x F32.nan).toRat
                  / (blenderIntrinsics p.width p.height).fx
              y := ((y : ℚ) - (blenderIntrinsics p.width p.height).cy)
                  * (getD2 p.depth y x F32.nan).toRat
                  / (blenderIntrinsics p.width p.height).fy
              z := (getD2 p.depth y x F32.nan).toRat
              red := blenderColorU8 (getD2 p.r y x F32.nan).toRat
              green := blenderColorU8 (getD2 p.g y x F32.nan).toRat
              blue := blenderColorU8 (getD2 p.b y x F32.nan).toRat
              normal := p.normals.map (fun n =>
                ((getD2 n.1 y x F32.nan).toRat,
                 (getD2 n.2.1 y x F32.nan).toRat,
                 (getD2 n.2.2 y x F32.nan).toRat)) } := by
  simp only [blenderVertices, List.mem_filterMap]
  constructor
  · rintro ⟨⟨y, x⟩, hmem, hv⟩
    rw [List.pair_mem_product] at hmem
    simp only [List.mem_range] at hmem
    by_cases hd : blenderValid (getD2 p.depth y x F32.nan)
    · rw [if_pos hd] at hv
      exact ⟨y, x, hmem.1, hmem.2, hd, (Option.some.inj hv).symm⟩
    · rw [if_neg hd] at hv
      cases hv
  · rintro ⟨y, x, hy, hx, hd, rfl⟩
    refine ⟨(y, x), ?_, ?_⟩
    · rw [List.pair_mem_product]
      simp only [List.mem_range]
      exact ⟨hy, hx⟩
    · rw [if_pos hd]

/-- `truncRat` agrees with the floor on nonnegative inputs. -/
theorem truncRat_nonneg (q : ℚ) (h : 0 ≤ q) : truncRat q = ⌊q⌋ := by
  rw [truncRat, if_pos h]

/-- `castU8` is the plain floor on inputs inside `[0, 255]` (no wrap). -/
theorem castU8_of_mem_range (q : ℚ) (h0 : 0 ≤ q) (h255 : q ≤ 255) :
    castU8 q = (⌊q⌋).toNat := by
  rw [castU8, truncRat_nonneg q h0]
  have hlow : (0 : ℤ) ≤ ⌊q⌋ := Int.floor_nonneg.2 h0
  have hhigh : ⌊q⌋ ≤ 255 := by
    calc ⌊q⌋ ≤ ⌊(255 : ℚ)⌋ := Int.floor_le_floor h255
    _ = 255 := by norm_num
  rw [Int.emod_eq_of_lt hlow (by omega)]

/-! ## Claims -/

/-- C1: every vertex either point-cloud encoder emits carries the
pinhole unprojection `((u - cx) * z / fx, (v - cy) * z / fy, z)` of its
pixel's depth under that encoder's effective intrinsics
(models/frame.py lines 93-97 and blender.py lines 179-181). -/
theorem c1_unprojection :
    (∀ (f : Frame) (v : Vertex), v ∈ f.plyVertices →
      ∃ y x, y < f.height ∧ x < f.width ∧ emitAt f y x = true ∧
        v.x = ((x : ℚ) - (effectiveIntrinsics f.camera f.width f.height).cx)
            * (getD2 f.depth y x F32.nan).toRat
            / (effectiveIntrinsics f.camera f.width f.height).fx ∧
        v.y = ((y : ℚ) - (effectiveIntrinsics f.camera f.width f.height).cy)
            * (getD2 f.depth y x F32.nan).toRat
            / (effectiveIntrinsics f.camera f.width f.height).fy ∧
        v.z = (getD2 f.depth y x F32.nan).toRat) ∧
    (∀ (p : DecodedPass) (v : BVertex), v ∈ blenderVertices p →
      ∃ y x, y < p.height ∧ x < p.width ∧
        blenderValid (getD2 p.depth y x F32.nan) = true ∧
        v.x = ((x : ℚ) - (blenderIntrinsics p.width p.height).cx)
            * (getD2 p.depth y x F32.nan).toRat
            / (blenderIntrinsics p.width p.height).fx ∧
        v.y = ((y : ℚ) - (blenderIntrinsics p.width p.height).cy)
            * (getD2 p.depth y x F32.nan).toRat
            / (blenderIntrinsics p.width p.height).fy ∧
        v.z = (getD2 p.depth y x F32.nan).toRat) := by
  constructor
  · intro f v hv
    obtain ⟨y, x, hy, hx, he, rfl⟩ := (mem_plyVertices_iff f v).1 hv
    exact ⟨y, x, hy, hx, he, rfl, rfl, rfl⟩
  · intro p v hv
    obtain ⟨y, x, hy, hx, hd, rfl⟩ := (mem_blenderVertices_iff p v).1 hv
    exact ⟨y, x, hy, hx, hd, rfl, rfl, rfl⟩

/-- Witness for C1: the 1×1 frame with `fx = fy = 100`, `cx = cy = 0.5`
and depth 1.0 at pixel (0,0) emits exactly one vertex, whose position is
`(-0.005, -0.005, 1.0)` exactly (so within absolute tolerance 1e-6). -/
theorem c1_unprojection_witness :
    (∃ y x, y < exFrame1.height ∧ x < exFrame1.width ∧ emitAt exFrame1 y x = true ∧
      exVertex1.x = ((x : ℚ) - (effectiveIntrinsics exFrame1.camera exFrame1.width exFrame1.height).cx)
          * (getD2 exFrame1.depth y x F32.nan).toRat
          / (effectiveIntrinsics exFrame1.camera exFrame1.width exFrame1.height).fx ∧
      exVertex1.y = ((y : ℚ) - (effectiveIntrinsics exFrame1.camera exFrame1.width exFrame1.height).cy)
          * (getD2 exFrame1.depth y x F32.nan).toRat
          / (effectiveIntrinsics exFrame1.camera exFrame1.width exFrame1.height).fy ∧
      exVertex1.z = (getD2 exFrame1.depth y x F32.nan).toRat) ∧
    exFrame1.plyVertices = [exVertex1] ∧
    |exVertex1.x - (-(5 : ℚ) / 1000)| ≤ 1 / 1000000 ∧
    |exVertex1.y - (-(5 : ℚ) / 1000)| ≤ 1 / 1000000 ∧
    |exVertex1.z - 1| ≤ 1 / 1000000 :=
  ⟨(c1_unprojection.1) exFrame1 exVertex1 (by with_unfolding_all decide),
   by with_unfolding_all decide, by with_unfolding_all decide,
   by with_unfolding_all decide, by with_unfolding_all decide⟩

/-- C3 (amended): `Frame.to_ply_bytes` writes every normal to the PLY
output unchanged — the world-space normal of the pixel is emitted as-is,
no rotation is built from the camera pose (models/frame.py lines
105-107); in particular axis-angle `(0,0,0)` leaves every normal
unchanged. -/
theorem c3_normals_unchanged (f : Frame) (v : Vertex) (hv : v ∈ f.plyVertices) :
    ∃ y x, y < f.height ∧ x < f.width ∧ emitAt f y x = true ∧
      (v.nx, v.ny, v.nz) = getD2 f.normal y x (0, 0, 0) := by
  obtain ⟨y, x, hy, hx, he, rfl⟩ := (mem_plyVertices_iff f v).1 hv
  exact ⟨y, x, hy, hx, he, rfl⟩

/-- Witness for C3's amended statement: the 1×1 frame with world normal
`(1, 0, 0)` emits exactly that normal. -/
theorem c3_normals_unchanged_witness :
    (∃ y x, y < exFrame3.height ∧ x < exFrame3.width ∧ emitAt exFrame3 y x = true ∧
      (exVertex3.nx, exVertex3.ny, exVertex3.nz) = getD2 exFrame3.normal y x (0, 0, 0)) ∧
    exFrame3.plyVertices = [exVertex3] :=
  ⟨c3_normals_unchanged exFrame3 exVertex3 (by with_unfolding_all decide),
   by with_unfolding_all decide⟩

/-- The spec-modelled rotation at axis-angle `(0, 0, π)` sends the world
normal `(1, 0, 0)` to `(-1, 0, 0)`. -/
theorem rodrigues_pi_about_z :
    specCameraNormal ((0 : ℝ), 0, Real.pi) ((1 : ℝ), 0, 0) = ((-1 : ℝ), 0, 0) := by
  have hs : Real.sqrt (Real.pi ^ 2) = Real.pi := Real.sqrt_sq Real.pi_pos.le
  have hn : ¬ Real.pi < (1 / 100000000 : ℝ) := by
    push_neg
    calc (1 / 100000000 : ℝ) ≤ 3 := by norm_num
    _ ≤ Real.pi := Real.pi_gt_three.le
  simp only [specCameraNormal, rodrigues]
  norm_num
  rw [hs, if_neg hn]
  simp [mT, mApp, mAdd, mSmul, mMul, mId, skewMat, Real.sin_pi, Real.cos_pi,
    div_self Real.pi_ne_zero]

/-- Counterexample for C3 as stated: for a camera pose with axis-angle
rotation `(0, 0, π)` (magnitude π, far above 1e-8) the spec's
`Rᵀ · normal_world` sends the world normal `(1, 0, 0)` to `(-1, 0, 0)`,
but `Frame.to_ply_bytes` emits `(1, 0, 0)` unchanged — the code never
rotates normals. -/
theorem c3_counterexample :
    exFrame3.plyVertices.map (fun v => (v.nx, v.ny, v.nz)) = [((1 : ℚ), 0, 0)] ∧
    specCameraNormal ((0 : ℝ), 0, Real.pi) (ratTriple ((1 : ℚ), 0, 0)) = ((-1 : ℝ), 0, 0) ∧
    ratTriple ((1 : ℚ), 0, 0) ≠ ((-1 : ℝ), 0, 0) := by
  refine ⟨by with_unfolding_all decide, ?_, ?_⟩
  · have h1 : ratTriple ((1 : ℚ), 0, 0) = ((1 : ℝ), 0, 0) := by
      simp [ratTriple]
    rw [h1]
    exact rodrigues_pi_about_z
  · simp [ratTriple, Prod.ext_iff]
    norm_num

/-- C2 (amended): `Frame.to_ply_bytes` defaults atomically — its
effective intrinsics are either its camera's four values (when all of
`fx, fy, cx, cy` are present and convertible) or exactly the default
quadruple `fx = fy = max(width, height)`, `cx = width/2`,
`cy = height/2`, never a mixture — while `Blender._convert_exr_to_ply`
never consults camera intrinsics and always unprojects with
`fx = fy = 0.7 * width`, `cx = width/2`, `cy = height/2`. -/
theorem c2_intrinsics_defaulting :
    (∀ (c : Camera) (w h : ℕ),
      effectiveIntrinsics c w h = defaultPinhole w h ∨
      ∃ a b u v2 : ℚ,
        c.camera_intrinsics = some ⟨Attr.val a, Attr.val b, Attr.val u, Attr.val v2⟩ ∧
        effectiveIntrinsics c w h = ⟨a, b, u, v2⟩) ∧
    (∀ w h : ℕ, blenderIntrinsics w h =
      ⟨(7 / 10 : ℚ) * w, (7 / 10 : ℚ) * w, (w : ℚ) / 2, (h : ℚ) / 2⟩) := by
  constructor
  · intro c w h
    obtain ⟨intr⟩ := c
    cases intr with
    | none => left; rfl
    | some i =>
      obtain ⟨a, b, u, v2⟩ := i
      cases a <;> cases b <;> cases u <;> cases v2 <;>
        first
          | (left; rfl)
          | (right; exact ⟨_, _, _, _, rfl, rfl⟩)
  · intro w h
    rfl

/-- Counterexample for C2 as stated: on a decoded 2×1 pass with unit
depth, `Blender._convert_exr_to_ply` — a point-cloud encoding with no
camera intrinsics in sight — unprojects pixel (0,0) to x = -5/7 (using
fx = 0.7·width = 1.4), not the x = -1/2 the claimed default
`fx = max(width, height) = 2` would give. -/
theorem c2_counterexample :
    (blenderVertices exPass2).map (fun v => v.x) = [-(5 / 7), 0] ∧
    (((0 : ℚ) - (defaultPinhole exPass2.width exPass2.height).cx) * 1
        / (defaultPinhole exPass2.width exPass2.height).fx) = -(1 / 2) ∧
    ((-(5 / 7) : ℚ)) ≠ -(1 / 2) := by
  refine ⟨by with_unfolding_all decide, by with_unfolding_all decide,
    by with_unfolding_all decide⟩

/-- C4 (amended): `Frame.to_ply_bytes` emits a vertex iff the pixel's
depth is positive and finite (and on `[[0.1, -0.5], [inf, nan]]` emits
exactly one), and its header count always equals the emitted row count;
`Blender._convert_exr_to_ply` additionally requires `depth < 1000`. -/
theorem c4_valid_depth :
    (∀ (f : Frame) (y x : ℕ), emitAt f y x =
      ((getD2 f.depth y x F32.nan).gtZero && (getD2 f.depth y x F32.nan).isFinite)) ∧
    exFrame4.plyVertices.length = 1 ∧
    (∀ f : Frame, (f.toPly).1.vertexCount = (f.toPly).2.length) ∧
    (∀ d : F32, blenderValid d = (d.gtZero && d.ltThousand && d.isFinite)) ∧
    (∀ p : DecodedPass, (blenderToPly p).1.vertexCount = (blenderToPly p).2.length) := by
  refine ⟨?_, by with_unfolding_all decide, fun f => rfl, fun d => rfl, fun p => rfl⟩
  intro f y x
  simp only [emitAt]
  generalize getD2 f.depth y x F32.nan = d
  cases d with
  | finite q =>
    by_cases h : q ≤ 0
    · simp [F32.leZero, F32.isFinite, F32.gtZero, h, not_lt.2 h]
    · simp [F32.leZero, F32.isFinite, F32.gtZero, h, lt_of_not_le h]
  | inf => rfl
  | neginf => rfl
  | nan => rfl

/-- Counterexample for C4 as stated: a decoded 1×1 pass with depth 1500
— positive and finite — emits no vertex from
`Blender._convert_exr_to_ply`, because of its `depth < 1000` cutoff. -/
theorem c4_counterexample :
    blenderVertices exPass4 = [] ∧
    (F32.finite 1500).gtZero = true ∧ (F32.finite 1500).isFinite = true := by
  refine ⟨by with_unfolding_all decide, by with_unfolding_all decide,
    by with_unfolding_all decide⟩

/-- C5: `_to_8bit_png` clips every element to `[0, 1]` and then
quantizes by the truncating cast `⌊clipped * 255⌋`, with the boundary
table `0→0`, `0.5→127`, `0.8→204`, `1→255`, `-0.5→0`, `1.5→255`. -/
theorem c5_raster_quantization :
    (∀ img : List (List ℚ), to_8bit_png img =
      img.map (fun row => row.map (fun q => (⌊(min 1 (max 0 q)) * 255⌋).toNat))) ∧
    quant8 0 = 0 ∧ quant8 (1 / 2) = 127 ∧ quant8 (4 / 5) = 204 ∧
    quant8 1 = 255 ∧ quant8 (-(1 / 2)) = 0 ∧ quant8 (3 / 2) = 255 := by
  refine ⟨?_, by with_unfolding_all decide⟩
  have hq : ∀ q : ℚ, quant8 q = (⌊(min 1 (max 0 q)) * 255⌋).toNat := by
    intro q
    have h0 : (0 : ℚ) ≤ min 1 (max 0 q) := le_min (by norm_num) (le_max_left 0 q)
    have h1 : min 1 (max 0 q) ≤ 1 := min_le_left _ _
    have h0m : (0 : ℚ) ≤ (min 1 (max 0 q)) * 255 := mul_nonneg h0 (by norm_num)
    have h1m : (min 1 (max 0 q)) * 255 ≤ 255 := by nlinarith
    rw [quant8, castU8_of_mem_range _ h0m h1m]
  intro img
  simp [to_8bit_png, hq]

/-- C6 (amended): `Blender._convert_exr_to_ply` clamps `color * 255` to
`[0, 255]` before the byte cast (no wrap possible), but
`Frame.to_ply_bytes` casts `color * 255` without clamping, so channel
values outside `[0, 1]` wrap modulo 256: a red channel of 2.0 produces
byte 254, not 255. -/
theorem c6_color_clamping :
    (∀ q : ℚ, blenderColorU8 q ≤ 255) ∧
    exFrame6.plyVertices.map (fun v => v.red) = [254] ∧
    castU8 ((2 : ℚ) * 255) = 254 := by
  refine ⟨?_, by with_unfolding_all decide, by with_unfolding_all decide⟩
  intro q
  rw [blenderColorU8]
  have h0 : (0 : ℚ) ≤ min 255 (max 0 (q * 255)) :=
    le_min (by norm_num) (le_max_left _ _)
  have h1 : min 255 (max 0 (q * 255)) ≤ 255 := min_le_left _ _
  rw [truncRat_nonneg _ h0]
  have hf : ⌊min 255 (max 0 (q * 255))⌋ ≤ 255 := by
    calc ⌊min 255 (max 0 (q * 255))⌋ ≤ ⌊(255 : ℚ)⌋ := Int.floor_le_floor h1
    _ = 255 := by norm_num
  omega

/-- Counterexample for C6 as stated: `Frame.to_ply_bytes` on a red
channel of 2.0 emits byte 254 (wraps modulo 256), while the claimed
clamp-then-truncate rule would give 255. -/
theorem c6_counterexample :
    exFrame6.plyVertices.map (fun v => v.red) ≠ [blenderColorU8 2] ∧
    blenderColorU8 2 = 255 := by
  refine ⟨by with_unfolding_all decide, by with_unfolding_all decide⟩

/-- C10: on every exit path of the orchestrator's render scope —
success, external-process failure, decode error, cancellation — the
`finally` block removes both the temporary input file and the temporary
output directory, and `BlenderFrame.__exit__` likewise leaves none of
its three artifact files behind. -/
theorem c10_scoped_cleanup :
    (∀ e : RenderExit,
      (renderScope e).2.inputFile = false ∧ (renderScope e).2.outputDir = false) ∧
    (∀ c d n : Bool, blenderFrameExit c d n = (false, false, false)) := by
  constructor
  · intro e
    exact ⟨rfl, rfl⟩
  · intro c d n
    cases c <;> cases d <;> cases n <;> rfl

/-- C7 (amended): `Frame.to_ply_bytes` always declares the vertex
properties `x, y, z, nx, ny, nz, red, green, blue` in exactly that order
(six float then three uchar) with the declared count equal to the data
rows, and a zero-valid-pixel frame yields a well-formed header with an
empty body; `Blender._convert_exr_to_ply` instead declares
`x, y, z, red, green, blue` and appends `nx, ny, nz` only when normals
were decoded. -/
theorem c7_ply_properties :
    (∀ f : Frame, (f.toPly).1.props = framePlyProps ∧
      (f.toPly).1.vertexCount = (f.toPly).2.length) ∧
    framePlyProps.map Prod.snd =
      ["x", "y", "z", "nx", "ny", "nz", "red", "green", "blue"] ∧
    exFrame7.plyVertices = [] ∧
    (exFrame7.toPly).1.lines =
      ["ply", "format ascii 1.0", "element vertex 0",
       "property float x", "property float y", "property float z",
       "property float nx", "property float ny", "property float nz",
       "property uchar red", "property uchar green", "property uchar blue",
       "end_header"] ∧
    (∀ p : DecodedPass, (blenderToPly p).1.props = blenderPlyProps p.normals.isSome) := by
  refine ⟨fun f => ⟨rfl, rfl⟩, by with_unfolding_all decide,
    by with_unfolding_all decide, by with_unfolding_all decide, fun p => rfl⟩

/-- Counterexample for C7 as stated: a decoded pass with normals makes
`Blender._convert_exr_to_ply` produce a nonempty PLY whose declared
property order is `x, y, z, red, green, blue, nx, ny, nz` — not the
claimed `x, y, z, nx, ny, nz, red, green, blue`. -/
theorem c7_counterexample :
    (blenderToPly exPass7).2 ≠ [] ∧
    (blenderToPly exPass7).1.props.map Prod.snd =
      ["x", "y", "z", "red", "green", "blue", "nx", "ny", "nz"] ∧
    (blenderToPly exPass7).1.props.map Prod.snd ≠
      ["x", "y", "z", "nx", "ny", "nz", "red", "green", "blue"] := by
  refine ⟨by with_unfolding_all decide, by with_unfolding_all decide,
    by with_unfolding_all decide⟩

/-- The depth-channel selection written as nested first-present tests in
the priority order of blender.py line 130. -/
theorem selectDepthChannel_eq (available : List String) :
    selectDepthChannel available =
      if "Z" ∈ available then "Z"
      else if "Depth" ∈ available then "Depth"
      else if "R" ∈ available then "R"
      else if "G" ∈ available then "G"
      else if "B" ∈ available then "B"
      else if "A" ∈ available then "A"
      else available.headD ("R") := by
  by_cases h1 : ("Z" ∈ available)
  · simp [selectDepthChannel, depthChannelPriority, List.find?, h1]
  · by_cases h2 : ("Depth" ∈ available)
    · simp [selectDepthChannel, depthChannelPriority, List.find?, h1, h2]
    · by_cases h3 : ("R" ∈ available)
      · simp [selectDepthChannel, depthChannelPriority, List.find?, h1, h2, h3]
      · by_cases h4 : ("G" ∈ available)
        · simp [selectDepthChannel, depthChannelPriority, List.find?, h1, h2, h3, h4]
        · by_cases h5 : ("B" ∈ available)
          · simp [selectDepthChannel, depthChannelPriority, List.find?, h1, h2, h3, h4, h5]
          · by_cases h6 : ("A" ∈ available)
            · simp [selectDepthChannel, depthChannelPriority, List.find?, h1, h2, h3, h4, h5, h6]
            · simp [selectDepthChannel, depthChannelPriority, List.find?, h1, h2, h3, h4, h5, h6]

/-- C8: the depth channel is chosen by trying `Z, Depth, R, G, B, A` in
exactly that priority order — the first name present in the artifact
wins — and when none is present the artifact's first declared channel is
used. -/
theorem c8_depth_channel_priority (available : List String) :
    ("Z" ∈ available → selectDepthChannel available = "Z") ∧
    ("Z" ∉ available → "Depth" ∈ available → selectDepthChannel available = "Depth") ∧
    ("Z" ∉ available → "Depth" ∉ available → "R" ∈ available →
      selectDepthChannel available = "R") ∧
    ("Z" ∉ available → "Depth" ∉ available → "R" ∉ available → "G" ∈ available →
      selectDepthChannel available = "G") ∧
    ("Z" ∉ available → "Depth" ∉ available → "R" ∉ available → "G" ∉ available →
      "B" ∈ available → selectDepthChannel available = "B") ∧
    ("Z" ∉ available → "Depth" ∉ available → "R" ∉ available → "G" ∉ available →
      "B" ∉ available → "A" ∈ available → selectDepthChannel available = "A") ∧
    ("Z" ∉ available → "Depth" ∉ available → "R" ∉ available → "G" ∉ available →
      "B" ∉ available → "A" ∉ available → ∀ a as, available = a :: as →
      selectDepthChannel available = a) := by
  refine ⟨?_, ?_, ?_, ?_, ?_, ?_, ?_⟩
  · intro h1; rw [selectDepthChannel_eq]; simp [h1]
  · intro h1 h2; rw [selectDepthChannel_eq]; simp [h1, h2]
  · intro h1 h2 h3; rw [selectDepthChannel_eq]; simp [h1, h2, h3]
  · intro h1 h2 h3 h4; rw [selectDepthChannel_eq]; simp [h1, h2, h3, h4]
  · intro h1 h2 h3 h4 h5; rw [selectDepthChannel_eq]; simp [h1, h2, h3, h4, h5]
  · intro h1 h2 h3 h4 h5 h6; rw [selectDepthChannel_eq]; simp [h1, h2, h3, h4, h5, h6]
  · intro h1 h2 h3 h4 h5 h6 a as ha
    subst ha
    rw [selectDepthChannel_eq]
    simp only [List.mem_cons, not_or] at h1 h2 h3 h4 h5 h6
    simp [h1.1, h1.2, h2.1, h2.2, h3.1, h3.2, h4.1, h4.2, h5.1, h5.2, h6.1, h6.2]

/-- Witness for C8: an artifact declaring channels `foo, B, G` selects
`G` — the first of the priority names present, not the first declared. -/
theorem c8_depth_channel_priority_witness :
    selectDepthChannel (["foo", "B", "G"]) = "G" :=
  ((c8_depth_channel_priority (["foo", "B", "G"])).2.2.2.1)
    (by decide) (by decide) (by decide) (by decide)

/-- A successful reshape yields exactly `h` rows of width `w`. -/
theorem reshape_ok_shape (buf : List F32) (h w : ℕ) (rows : List (List F32))
    (hr : reshape buf h w = .ok rows) :
    rows.length = h ∧ rows.all (fun row => row.length = w) = true := by
  by_cases hlen : buf.length = h * w
  · rw [reshape, if_pos hlen] at hr
    obtain rfl := Except.ok.inj hr
    constructor
    · simp
    · rw [List.all_eq_true]
      intro row hrow
      simp only [List.mem_map, List.mem_range] at hrow
      obtain ⟨i, hi, rfl⟩ := hrow
      have hterm : i * w + w ≤ h * w := by
        have hmul : (i + 1) * w ≤ h * w := Nat.mul_le_mul_right w (Nat.succ_le_of_lt hi)
        rw [Nat.succ_mul] at hmul
        exact hmul
      simp [List.length_take, List.length_drop, hlen]
      omega
  · rw [reshape, if_neg hlen] at hr
    cases hr

/-- C9 (amended): every buffer a successful decode returns is shaped by
the color artifact's declared data window, and when the selected depth
buffer's element count disagrees with that window the decode fails — a
generic reshape error, with no partial output (`Except.error` carries no
pass). Declared dimensions are only checked through element counts, so
transposed artifacts with the same pixel count are accepted (see the
counterexample). -/
theorem c9_shape_mismatch :
    (∀ (color depthA : ExrArtifact) (p : DecodedPass),
      decodePass color depthA none = .ok p →
      p.depth.length = color.height ∧
      p.depth.all (fun row => row.length = color.width) = true) ∧
    (∀ (color depthA : ExrArtifact) (db : List F32),
      depthA.channel? (selectDepthChannel depthA.channelNames) = some db →
      db.length ≠ color.height * color.width →
      decodeOk (decodePass color depthA none) = false) := by
  constructor
  · intro color depthA p hok
    simp only [decodePass, decodeNormals] at hok
    split at hok
    · rename_i rb gb bb hRGB
      split at hok
      · rename_i r g b hRr hGr hBr
        split at hok
        · rename_i db hdb
          split at hok
          · rename_i depth hDr
            obtain rfl := Except.ok.inj hok
            exact reshape_ok_shape db color.height color.width depth hDr
          · cases hok
        · cases hok
      · cases hok
    · cases hok
  · intro color depthA db hdb hne
    rcases hR : color.channel? ("R") with _ | rb
    · simp [decodeOk, decodePass, hR]
    · rcases hG : color.channel? ("G") with _ | gb
      · simp [decodeOk, decodePass, hR, hG]
      · rcases hB : color.channel? ("B") with _ | bb
        · simp [decodeOk, decodePass, hR, hG, hB]
        · rcases hRR : reshape rb color.height color.width with e | r
          · simp [decodeOk, decodePass, hR, hG, hB, hRR]
          · rcases hGG : reshape gb color.height color.width with e | g
            · simp [decodeOk, decodePass, hR, hG, hB, hRR, hGG]
            · rcases hBB : reshape bb color.height color.width with e | b
              · simp [decodeOk, decodePass, hR, hG, hB, hRR, hGG, hBB]
              · simp only [decodePass, hR, hG, hB, hRR, hGG, hBB, hdb]
                rw [reshape, if_neg hne]
                rfl

/-- Witness for C9's amended statement: the transposed pair decodes to a
pass shaped by the color window (3 rows of 2), and a depth buffer of two
samples against a 1×1 color window makes the decode fail with no
output. -/
theorem c9_shape_mismatch_witness :
    (exPassOk.depth.length = exColorOk.height ∧
      exPassOk.depth.all (fun row => row.length = exColorOk.width) = true) ∧
    decodeOk (decodePass exColor1 exDepthBad none) = false :=
  ⟨(c9_shape_mismatch.1) exColorOk exDepthT exPassOk (by with_unfolding_all decide),
   (c9_shape_mismatch.2) exColor1 exDepthBad [F32.finite 1, F32.finite 2]
     (by with_unfolding_all decide) (by with_unfolding_all decide)⟩

/-- Counterexample for C9 as stated: a color artifact declaring 2×3 and
a depth artifact declaring 3×2 — inconsistent widths and heights — decode
successfully (their element counts agree), so no ShapeMismatch-style
error is raised. -/
theorem c9_counterexample :
    exColorOk.width ≠ exDepthT.width ∧ exColorOk.height ≠ exDepthT.height ∧
    decodeOk (decodePass exColorOk exDepthT none) = true := by
  refine ⟨by decide, by decide, by with_unfolding_all decide⟩

end BC
